import Mathlib

/-!
# Verification of the CI-CD---MCP client core

Shallow embedding of the repository's client layer:

* `OllamaClient` (src/unnamed/part_002): health check, model listing/lookup,
  streaming generate/chat aggregation, and model pulling.
* `MCPClient` (src/src/lib/mcp/client.ts and src/unnamed/part_001): the
  envelope `sendRequest` and the request-id generator.
* The server-side dispatch table (`handleMCPRequest` / `executeTool` /
  `getContext` in src/src/components/cicd/DeploymentStatus.tsx).

Effects are made explicit: the outcome of a `fetch` call is a
`FetchOutcome` value (HTTP status plus decoded body, or a network error),
a streamed response body is the list of its newline-separated,
non-blank lines after each line's JSON parse attempt
(`none` standing for a line whose `JSON.parse` threw), and
`new Date().toISOString()` is a `now : String` parameter.  A function that
can `throw` returns `Except String α`, carrying the thrown message.
-/

namespace CicdMcp

/-- Outcome of a single `fetch` call: either a response with an HTTP
status code and a (decoded) body, or a rejected promise (network error). -/
inductive FetchOutcome (β : Type) where
  | ok (status : Nat) (body : β)
  | networkError (msg : String)
deriving Repr, DecidableEq

/-- `response.ok`: true for a 2xx status. -/
def httpOk (status : Nat) : Bool :=
  200 ≤ status ∧ status ≤ 299

/-- The message of `new Error("HTTP error! status: " + status)`. -/
def httpErrorMsg (status : Nat) : String :=
  "HTTP error! status: " ++ toString status

/-- `fullResponse += x` guarded by JS truthiness of `x`
(`if (data.response) fullResponse += data.response`): an absent field or
an empty string is falsy, so nothing is appended in those cases. -/
def jsAppend (acc : String) (frag : Option String) : String :=
  match frag with
  | none => acc
  | some s => if s.isEmpty then acc else acc ++ s

/-- The `OllamaGenerateResponse` wire shape (src/unnamed/part_002 lines
37-49).  A parsed streaming frame has the same shape, with fields that may
be absent from the JSON made optional; `done` is the JS truthiness of
`data.done` (absent = false). -/
structure OllamaGenerateResponse where
  model : String
  created_at : String
  response : Option String
  done : Bool
  context : Option (List Int)
  total_duration : Option Nat
  load_duration : Option Nat
  prompt_eval_count : Option Nat
  prompt_eval_duration : Option Nat
  eval_count : Option Nat
  eval_duration : Option Nat
deriving Repr, DecidableEq

/-- A parsed line of a streamed `/api/chat` response: content lives at
`data.message.content` (`data.message?.content`, absent = none). -/
structure OllamaChatFrame where
  model : String
  created_at : String
  message_content : Option String
  done : Bool
  total_duration : Option Nat
  load_duration : Option Nat
  prompt_eval_count : Option Nat
  prompt_eval_duration : Option Nat
  eval_count : Option Nat
  eval_duration : Option Nat
deriving Repr, DecidableEq

/-- `OllamaGenerateRequest` (the fields the streaming loop reads). -/
structure OllamaGenerateRequest where
  model : String
  prompt : String
deriving Repr, DecidableEq

/-- `OllamaChatRequest` (the fields the streaming loop reads). -/
structure OllamaChatRequest where
  model : String
  messages : List (String × String)
deriving Repr, DecidableEq

/-- One iteration of the `generateStream` line loop (part_002 lines
183-203): a parse failure (`none`) is skipped with a warning; otherwise the
fragment is appended to the running text and, when the frame is marked
done, the frame with its `response` replaced by the accumulated text is
captured as `lastResponse`. -/
def genStep (acc : String × Option OllamaGenerateResponse)
    (line : Option OllamaGenerateResponse) :
    String × Option OllamaGenerateResponse :=
  match line with
  | none => acc
  | some d =>
    let full := jsAppend acc.1 d.response
    (full, if d.done then some { d with response := some full } else acc.2)

/-- The whole `generateStream` read loop over the stream's parsed lines. -/
def genFold (lines : List (Option OllamaGenerateResponse))
    (acc : String × Option OllamaGenerateResponse) :
    String × Option OllamaGenerateResponse :=
  lines.foldl genStep acc

/-- One iteration of the `chatStream` line loop (part_002 lines 282-321):
content comes from `data.message?.content`; on a done frame `lastResponse`
is rebuilt field by field with `response := fullResponse`, `done := true`
and no `context` field. -/
def chatStep (acc : String × Option OllamaGenerateResponse)
    (line : Option OllamaChatFrame) :
    String × Option OllamaGenerateResponse :=
  match line with
  | none => acc
  | some d =>
    let full := jsAppend acc.1 d.message_content
    (full,
      if d.done then
        some { model := d.model
               created_at := d.created_at
               response := some full
               done := true
               context := none
               total_duration := d.total_duration
               load_duration := d.load_duration
               prompt_eval_count := d.prompt_eval_count
               prompt_eval_duration := d.prompt_eval_duration
               eval_count := d.eval_count
               eval_duration := d.eval_duration }
      else acc.2)

/-- The whole `chatStream` read loop over the stream's parsed lines. -/
def chatFold (lines : List (Option OllamaChatFrame))
    (acc : String × Option OllamaGenerateResponse) :
    String × Option OllamaGenerateResponse :=
  lines.foldl chatStep acc

/-- The synthesized terminal record returned when no frame was marked done
(part_002 lines 209-216 and 327-334). -/
def fallbackResponse (model now full : String) : OllamaGenerateResponse :=
  { model := model
    created_at := now
    response := some full
    done := true
    context := none
    total_duration := none
    load_duration := none
    prompt_eval_count := none
    prompt_eval_duration := none
    eval_count := none
    eval_duration := none }

/-- `OllamaClient.generateStream` (part_002 lines 147-217).  `lines` is the
sequence of parsed, non-blank lines of the streamed body and `now` the
value of `new Date().toISOString()` at return time. -/
def generateStream (req : OllamaGenerateRequest) (status : Nat)
    (lines : List (Option OllamaGenerateResponse)) (now : String) :
    Except String OllamaGenerateResponse :=
  if httpOk status then
    let r := genFold lines ("", none)
    .ok (match r.2 with
      | some last => last
      | none => fallbackResponse req.model now r.1)
  else .error (httpErrorMsg status)

/-- `OllamaClient.chatStream` (part_002 lines 246-335). -/
def chatStream (req : OllamaChatRequest) (status : Nat)
    (lines : List (Option OllamaChatFrame)) (now : String) :
    Except String OllamaGenerateResponse :=
  if httpOk status then
    let r := chatFold lines ("", none)
    .ok (match r.2 with
      | some last => last
      | none => fallbackResponse req.model now r.1)
  else .error (httpErrorMsg status)

/-- Fragment carried by a parsed generate line (empty for a parse
failure or an absent field). -/
def genFrag (line : Option OllamaGenerateResponse) : String :=
  (line.bind OllamaGenerateResponse.response).getD ""

/-- Fragment carried by a parsed chat line. -/
def chatFrag (line : Option OllamaChatFrame) : String :=
  (line.bind OllamaChatFrame.message_content).getD ""

/-- Concatenation, in arrival order, of the generate fragments, folded
from `acc` exactly as the loop does. -/
def genConcatFrom (acc : String) (lines : List (Option OllamaGenerateResponse)) : String :=
  lines.foldl (fun a l => a ++ genFrag l) acc

/-- Concatenation of all generate fragments in arrival order. -/
def genConcat (lines : List (Option OllamaGenerateResponse)) : String :=
  genConcatFrom "" lines

/-- Chat-side analogue of `genConcatFrom`. -/
def chatConcatFrom (acc : String) (lines : List (Option OllamaChatFrame)) : String :=
  lines.foldl (fun a l => a ++ chatFrag l) acc

/-- Concatenation of all chat fragments in arrival order. -/
def chatConcat (lines : List (Option OllamaChatFrame)) : String :=
  chatConcatFrom "" lines

/-- Whether a parsed generate line is marked done. -/
def genDone (line : Option OllamaGenerateResponse) : Bool :=
  match line with
  | none => false
  | some d => d.done

/-- Whether a parsed chat line is marked done. -/
def chatDone (line : Option OllamaChatFrame) : Bool :=
  match line with
  | none => false
  | some d => d.done

/-- Concrete generate frame used in witnesses: done, fragment "hi". -/
def wGenDone : OllamaGenerateResponse :=
  { model := "m"
    created_at := "T0"
    response := some "hi"
    done := true
    context := none
    total_duration := some 5
    load_duration := none
    prompt_eval_count := none
    prompt_eval_duration := none
    eval_count := some 2
    eval_duration := none }

/-- Concrete generate frame: not done, fragment "a". -/
def wGenFragA : OllamaGenerateResponse :=
  { wGenDone with response := some "a", done := false }

/-- Concrete generate frame: not done, fragment "b". -/
def wGenFragB : OllamaGenerateResponse :=
  { wGenDone with response := some "b", done := false }

/-- Concrete chat frame used in witnesses: done, fragment "yo". -/
def wChatDone : OllamaChatFrame :=
  { model := "cm"
    created_at := "T1"
    message_content := some "yo"
    done := true
    total_duration := some 7
    load_duration := none
    prompt_eval_count := none
    prompt_eval_duration := none
    eval_count := some 3
    eval_duration := none }

/-- Concrete chat frame: not done, fragment "c". -/
def wChatFragC : OllamaChatFrame :=
  { wChatDone with message_content := some "c", done := false }

/-- `OllamaModel.details` (part_002 lines 12-19). -/
structure OllamaModelDetails where
  parent_model : String
  format : String
  family : String
  families : List String
  parameter_size : String
  quantization_level : String
deriving Repr, DecidableEq

/-- `OllamaModel` (part_002 lines 6-20). -/
structure OllamaModel where
  name : String
  model : String
  modified_at : String
  size : Nat
  digest : String
  details : OllamaModelDetails
deriving Repr, DecidableEq

/-- Decoded body of `GET /api/tags`: `models` may be absent or null. -/
structure TagsBody where
  models : Option (List OllamaModel)
deriving Repr, DecidableEq

/-- The decoded-JSON outcome for `/api/tags`: `Except.error` when
`response.json()` throws, `Except.ok none` when the decoded value is
null, `Except.ok (some t)` otherwise. -/
abbrev TagsOutcome := FetchOutcome (Except String (Option TagsBody))

/-- `OllamaClient.healthCheck` (part_002 lines 86-108).  Every failure
path is inside the `try`, so the function is total: a network error, a
non-2xx status, a body whose decode throws, a null body and a body with
an absent/null `models` field all yield `false`.  The source returns the
JS-truthy value `data && data.models`; we embed its truthiness (any
array, even empty, is truthy). -/
def healthCheck (o : TagsOutcome) : Bool :=
  match o with
  | .networkError _ => false
  | .ok status body =>
    if httpOk status then
      match body with
      | .error _ => false
      | .ok none => false
      | .ok (some t) =>
        match t.models with
        | none => false
        | some _ => true
    else false

/-- `OllamaClient.getModels` (part_002 lines 113-129): throws on a
non-2xx status or network failure (the catch logs and rethrows), else
returns `data.models || []`.  Reading `data.models` on a null body
throws a TypeError, which is likewise rethrown. -/
def getModels (o : TagsOutcome) : Except String (List OllamaModel) :=
  match o with
  | .networkError e => .error e
  | .ok status body =>
    if httpOk status then
      match body with
      | .error e => .error e
      | .ok none => .error "TypeError: Cannot read properties of null"
      | .ok (some t) => .ok (t.models.getD [])
    else .error (httpErrorMsg status)

/-- `OllamaClient.getModel` (part_002 lines 134-142): swallows a
`getModels` failure into `null`, else returns the first listed model
whose `name` equals the query (`models.find(...) || null`). -/
def getModel (modelName : String) (o : TagsOutcome) : Option OllamaModel :=
  match getModels o with
  | .error _ => none
  | .ok models => models.find? (fun m => m.name == modelName)

/-- One non-blank line of the streamed `/api/pull` body: a parsed JSON
object with its optional `status` field, or a line whose parse threw. -/
inductive PullLine where
  | frame (status : Option String)
  | malformed
deriving Repr, DecidableEq

/-- `data.status === "success"` for a line (false for a malformed line
or an absent status field). -/
def pullLineSuccess : PullLine → Bool
  | .frame (some s) => s == "success"
  | .frame none => false
  | .malformed => false

/-- The `pullModel` read loop (part_002 lines 395-413): returns the
lines actually consumed — the loop returns at the first line whose
status is "success", leaving the rest of the stream undrained; with no
such line it drains the whole stream and falls through. -/
def pullLoop : List PullLine → List PullLine
  | [] => []
  | l :: ls => if pullLineSuccess l then [l] else l :: pullLoop ls

/-- `OllamaClient.pullModel` (part_002 lines 374-417): throws on a
non-2xx status, otherwise resolves with `()` in every case (success
frame seen, or stream end without one).  The second component records
which lines the loop consumed. -/
def pullModel (status : Nat) (lines : List PullLine) :
    Except String (Unit × List PullLine) :=
  if httpOk status then .ok ((), pullLoop lines)
  else .error (httpErrorMsg status)

/-- `MCPMessage` (client.ts lines 6-16), polymorphic in the params
payload the caller supplies. -/
structure MCPMessage (π : Type) where
  id : String
  type : String
  method : String
  params : Option π
deriving Repr, DecidableEq

/-- The HTTP request `MCPClient.sendRequest` issues: URL, verb, headers
and the serialized envelope message. -/
structure SentRequest (π : Type) where
  url : String
  httpMethod : String
  headers : List (String × String)
  message : MCPMessage π
deriving Repr, DecidableEq

/-- The fixed relative endpoint (client.ts line 55; the part_001 copy
differs only in this path, using "/mcp/request"). -/
def mcpRequestPath : String := "/api/mcp/request"

/-- `MCPClient.sendRequest` (client.ts lines 43-74): builds a message
with the freshly generated id and type "request", POSTs it with a
bearer-token Authorization header, throws an `HTTP error!` on a non-2xx
status, returns the decoded body verbatim on 2xx, and rethrows a network
(or body-decode) failure after logging. -/
def sendRequest {π β : Type} (baseUrl apiKey freshId method : String)
    (params : Option π) (transport : FetchOutcome (Except String β)) :
    SentRequest π × Except String β :=
  let message : MCPMessage π :=
    { id := freshId, type := "request", method := method, params := params }
  ({ url := baseUrl ++ mcpRequestPath
     httpMethod := "POST"
     headers := [("Content-Type", "application/json"),
                 ("Authorization", "Bearer " ++ apiKey)]
     message := message },
   match transport with
   | .networkError e => .error e
   | .ok status body =>
     if httpOk status then body
     else .error (httpErrorMsg status))

/-- A base-36 digit as the character `Number.prototype.toString(36)`
emits: 0-9 then a-z. -/
def base36Char (d : Fin 36) : Char :=
  if d.val < 10 then Char.ofNat (48 + d.val) else Char.ofNat (87 + d.val)

/-- JS `x.toString(36)` for `x = Math.random()` in [0,1), the draw
represented by the base-36 digits of its fractional part (shortest
expansion, no trailing zeros — doubles are dyadic so the expansion is
finite): "0" for x = 0, else "0." followed by the digits. -/
def jsToString36 (ds : List (Fin 36)) : String :=
  if ds.isEmpty then "0" else "0." ++ String.mk (ds.map base36Char)

/-- JS `String.prototype.substr(start, len)`. -/
def jsSubstr (s : String) (start len : Nat) : String :=
  String.mk ((s.toList.drop start).take len)

/-- `MCPClient.generateId` (client.ts lines 118-120):
`Math.random().toString(36).substr(2, 9)`. -/
def generateId (ds : List (Fin 36)) : String :=
  jsSubstr (jsToString36 ds) 2 9

/-- The per-model summary `executeTool` builds for "ollama_models"
(DeploymentStatus.tsx lines 813-818). -/
structure ModelSummary where
  name : String
  size : Nat
  modified_at : String
  family : String
deriving Repr, DecidableEq

/-- `models.map(model => ({name, size, modified_at, family}))`. -/
def modelSummary (m : OllamaModel) : ModelSummary :=
  { name := m.name
    size := m.size
    modified_at := m.modified_at
    family := m.details.family }

/-- The JSON object a tool handler returns (DeploymentStatus.tsx lines
756-850), flattened: fields absent from a given branch are `none`. -/
structure ToolCallPayload where
  success : Bool
  response : Option String
  model : Option String
  duration : Option Nat
  models : Option (List ModelSummary)
  healthy : Option Bool
  error : Option String
  timestamp : String
deriving Repr, DecidableEq

/-- The outcomes of the four Model-Server Client calls a `tools/call`
dispatch may perform (`Except.error` = the awaited call threw).  The
tool arguments only shape the outgoing request, which these outcomes
abstract. -/
structure ToolOutcomes where
  generate : Except String OllamaGenerateResponse
  chat : Except String OllamaGenerateResponse
  models : Except String (List OllamaModel)
  health : Except String Bool
deriving Repr

/-- `executeTool` (DeploymentStatus.tsx lines 756-850): each of the four
known tools wraps its client call in try/catch, returning
`{success: true, ...data, timestamp}` on success and
`{success: false, error, timestamp}` (plus `healthy: false` for
"ollama_health") on failure; an unknown tool name throws. -/
def executeTool (toolName : String) (oc : ToolOutcomes) (now : String) :
    Except String ToolCallPayload :=
  match toolName with
  | "ollama_generate" =>
    .ok (match oc.generate with
      | .ok r =>
        { success := true, response := r.response, model := some r.model
          duration := r.total_duration, models := none, healthy := none
          error := none, timestamp := now }
      | .error e =>
        { success := false, response := none, model := none, duration := none
          models := none, healthy := none, error := some e, timestamp := now })
  | "ollama_chat" =>
    .ok (match oc.chat with
      | .ok r =>
        { success := true, response := r.response, model := some r.model
          duration := r.total_duration, models := none, healthy := none
          error := none, timestamp := now }
      | .error e =>
        { success := false, response := none, model := none, duration := none
          models := none, healthy := none, error := some e, timestamp := now })
  | "ollama_models" =>
    .ok (match oc.models with
      | .ok ms =>
        { success := true, response := none, model := none, duration := none
          models := some (ms.map modelSummary), healthy := none
          error := none, timestamp := now }
      | .error e =>
        { success := false, response := none, model := none, duration := none
          models := none, healthy := none, error := some e, timestamp := now })
  | "ollama_health" =>
    .ok (match oc.health with
      | .ok b =>
        { success := true, response := none, model := none, duration := none
          models := none, healthy := some b, error := none, timestamp := now }
      | .error e =>
        { success := false, response := none, model := none, duration := none
          models := none, healthy := some false, error := some e
          timestamp := now })
  | _ => .error ("Unknown tool: " ++ toolName)

/-- A property of a tool's input schema (`{type, description}`). -/
structure ToolSchemaProperty where
  type : String
  description : String
deriving Repr, DecidableEq

/-- A tool's `inputSchema` (client.ts lines 21-25). -/
structure ToolInputSchema where
  type : String
  properties : List (String × ToolSchemaProperty)
  required : Option (List String)
deriving Repr, DecidableEq

/-- `MCPTool` (client.ts lines 18-26). -/
structure MCPTool where
  name : String
  description : String
  inputSchema : ToolInputSchema
deriving Repr, DecidableEq

/-- The static tool registry `handleMCPRequest` returns for
"tools/list" (DeploymentStatus.tsx lines 678-740). -/
def mcpToolRegistry : List MCPTool :=
  [ { name := "ollama_generate"
      description := "Ollama를 사용하여 텍스트 생성"
      inputSchema :=
        { type := "object"
          properties :=
            [ ("prompt", { type := "string", description := "생성할 텍스트의 프롬프트" }),
              ("model", { type := "string", description := "사용할 모델명 (기본값: tinyllama)" }),
              ("temperature", { type := "number", description := "온도 설정 (0.0-1.0)" }),
              ("max_tokens", { type := "number", description := "최대 토큰 수" }) ]
          required := some ["prompt"] } },
    { name := "ollama_chat"
      description := "Ollama를 사용하여 채팅"
      inputSchema :=
        { type := "object"
          properties :=
            [ ("message", { type := "string", description := "사용자 메시지" }),
              ("model", { type := "string", description := "사용할 모델명 (기본값: tinyllama)" }),
              ("temperature", { type := "number", description := "온도 설정 (0.0-1.0)" }) ]
          required := some ["message"] } },
    { name := "ollama_models"
      description := "사용 가능한 Ollama 모델 목록 조회"
      inputSchema := { type := "object", properties := [], required := none } },
    { name := "ollama_health"
      description := "Ollama 서버 상태 확인"
      inputSchema := { type := "object", properties := [], required := none } } ]

/-- A static context blob (DeploymentStatus.tsx lines 852-876). -/
inductive ContextBlob where
  | project (name version description : String) (technologies : List String)
  | deployment (environments : List String) (currentVersion lastDeployment : String)
  | fallback (contextType : String) (query : Option String) (data : String)
deriving Repr, DecidableEq

/-- `getContext` (DeploymentStatus.tsx lines 852-876). -/
def getContext (contextType : String) (query : Option String) (now : String) :
    ContextBlob :=
  match contextType with
  | "project" =>
    .project "nextjs-cicd-mcp-practice" "1.0.0" "CI/CD and MCP practice project"
      ["Next.js", "TypeScript", "Tailwind CSS"]
  | "deployment" => .deployment ["staging", "production"] "1.0.0" now
  | _ => .fallback contextType query "No specific context available"

/-- The result a `handleMCPRequest` branch produces. -/
inductive MCPResult where
  | tools (ts : List MCPTool)
  | toolResult (p : ToolCallPayload)
  | contextBlob (c : ContextBlob)
deriving Repr, DecidableEq

/-- `handleMCPRequest` (DeploymentStatus.tsx lines 673-754): switches on
the envelope method; an unknown method throws. -/
def handleMCPRequest (method : String) (toolName : String) (oc : ToolOutcomes)
    (contextType : String) (query : Option String) (now : String) :
    Except String MCPResult :=
  match method with
  | "tools/list" => .ok (.tools mcpToolRegistry)
  | "tools/call" => (executeTool toolName oc now).map .toolResult
  | "context/get" => .ok (.contextBlob (getContext contextType query now))
  | _ => .error ("Unknown method: " ++ method)

/-- Concrete model descriptor used in witnesses. -/
def wModelA : OllamaModel :=
  { name := "alpha"
    model := "alpha:latest"
    modified_at := "2024-01-01"
    size := 10
    digest := "d1"
    details :=
      { parent_model := ""
        format := "gguf"
        family := "llama"
        families := ["llama"]
        parameter_size := "7B"
        quantization_level := "Q4_0" } }

/-- A second concrete model descriptor used in witnesses. -/
def wModelB : OllamaModel :=
  { wModelA with name := "beta", model := "beta:latest", digest := "d2" }

theorem jsAppend_eq (acc : String) (frag : Option String) :
    jsAppend acc frag = acc ++ frag.getD "" := by
  cases frag with
  | none => simp [jsAppend]
  | some s =>
    by_cases h : s.isEmpty
    · have hs : s = "" := by simpa [String.isEmpty_iff] using h
      simp [jsAppend, h, hs]
    · simp [jsAppend, h]

theorem genFold_fst (lines : List (Option OllamaGenerateResponse))
    (acc : String × Option OllamaGenerateResponse) :
    (genFold lines acc).1 = genConcatFrom acc.1 lines := by
  induction lines generalizing acc with
  | nil => rfl
  | cons l ls ih =>
    have step : genFold (l :: ls) acc = genFold ls (genStep acc l) := rfl
    rw [step, ih]
    cases l with
    | none => simp [genStep, genConcatFrom, genFrag]
    | some d => simp [genStep, genConcatFrom, genFrag, jsAppend_eq]

theorem chatFold_fst (lines : List (Option OllamaChatFrame))
    (acc : String × Option OllamaGenerateResponse) :
    (chatFold lines acc).1 = chatConcatFrom acc.1 lines := by
  induction lines generalizing acc with
  | nil => rfl
  | cons l ls ih =>
    have step : chatFold (l :: ls) acc = chatFold ls (chatStep acc l) := rfl
    rw [step, ih]
    cases l with
    | none => simp [chatStep, chatConcatFrom, chatFrag]
    | some d => simp [chatStep, chatConcatFrom, chatFrag, jsAppend_eq]

theorem genFold_snd_of_no_done (lines : List (Option OllamaGenerateResponse))
    (acc : String × Option OllamaGenerateResponse)
    (h : ∀ l ∈ lines, genDone l = false) :
    (genFold lines acc).2 = acc.2 := by
  induction lines generalizing acc with
  | nil => rfl
  | cons l ls ih =>
    have step : genFold (l :: ls) acc = genFold ls (genStep acc l) := rfl
    rw [step]
    have htl := ih (genStep acc l) (fun x hx => h x (List.mem_cons_of_mem _ hx))
    rw [htl]
    cases l with
    | none => rfl
    | some d =>
      have hd : d.done = false := by
        simpa [genDone] using h (some d) (List.mem_cons_self _ _)
      simp [genStep, hd]

theorem chatFold_snd_of_no_done (lines : List (Option OllamaChatFrame))
    (acc : String × Option OllamaGenerateResponse)
    (h : ∀ l ∈ lines, chatDone l = false) :
    (chatFold lines acc).2 = acc.2 := by
  induction lines generalizing acc with
  | nil => rfl
  | cons l ls ih =>
    have step : chatFold (l :: ls) acc = chatFold ls (chatStep acc l) := rfl
    rw [step]
    have htl := ih (chatStep acc l) (fun x hx => h x (List.mem_cons_of_mem _ hx))
    rw [htl]
    cases l with
    | none => rfl
    | some d =>
      have hd : d.done = false := by
        simpa [chatDone] using h (some d) (List.mem_cons_self _ _)
      simp [chatStep, hd]

theorem genConcat_append_single (pre : List (Option OllamaGenerateResponse))
    (l : Option OllamaGenerateResponse) :
    genConcat (pre ++ [l]) = genConcat pre ++ genFrag l := by
  simp [genConcat, genConcatFrom, List.foldl_append]

theorem chatConcat_append_single (pre : List (Option OllamaChatFrame))
    (l : Option OllamaChatFrame) :
    chatConcat (pre ++ [l]) = chatConcat pre ++ chatFrag l := by
  simp [chatConcat, chatConcatFrom, List.foldl_append]

theorem genFold_single_done (pre post : List (Option OllamaGenerateResponse))
    (d : OllamaGenerateResponse) (hd : d.done = true)
    (hpre : ∀ l ∈ pre, genDone l = false)
    (hpost : ∀ l ∈ post, genDone l = false) :
    (genFold (pre ++ some d :: post) ("", none)).2 =
      some { d with response := some (genConcat (pre ++ [some d])) } := by
  have hsplit : genFold (pre ++ some d :: post) ("", none) =
      genFold (some d :: post) (genFold pre ("", none)) := by
    simp [genFold, List.foldl_append]
  have hacc : genFold pre ("", none) = (genConcat pre, none) := by
    have h1 := genFold_fst pre ("", none)
    have h2 := genFold_snd_of_no_done pre ("", none) hpre
    exact Prod.ext (by simpa [genConcat] using h1) (by simpa using h2)
  have hstep : genStep (genConcat pre, none) (some d) =
      (genConcat (pre ++ [some d]),
        some { d with response := some (genConcat (pre ++ [some d])) }) := by
    simp [genStep, hd, jsAppend_eq, genConcat_append_single, genFrag]
  calc (genFold (pre ++ some d :: post) ("", none)).2
      = (genFold post (genStep (genConcat pre, none) (some d))).2 := by
        rw [hsplit, hacc]; rfl
    _ = some { d with response := some (genConcat (pre ++ [some d])) } := by
        rw [hstep, genFold_snd_of_no_done post _ hpost]

theorem chatFold_single_done (pre post : List (Option OllamaChatFrame))
    (c : OllamaChatFrame) (hc : c.done = true)
    (hpre : ∀ l ∈ pre, chatDone l = false)
    (hpost : ∀ l ∈ post, chatDone l = false) :
    (chatFold (pre ++ some c :: post) ("", none)).2 =
      some { model := c.model
             created_at := c.created_at
             response := some (chatConcat (pre ++ [some c]))
             done := true
             context := none
             total_duration := c.total_duration
             load_duration := c.load_duration
             prompt_eval_count := c.prompt_eval_count
             prompt_eval_duration := c.prompt_eval_duration
             eval_count := c.eval_count
             eval_duration := c.eval_duration } := by
  have hsplit : chatFold (pre ++ some c :: post) ("", none) =
      chatFold (some c :: post) (chatFold pre ("", none)) := by
    simp [chatFold, List.foldl_append]
  have hacc : chatFold pre ("", none) = (chatConcat pre, none) := by
    have h1 := chatFold_fst pre ("", none)
    have h2 := chatFold_snd_of_no_done pre ("", none) hpre
    exact Prod.ext (by simpa [chatConcat] using h1) (by simpa using h2)
  have hstep : chatStep (chatConcat pre, none) (some c) =
      (chatConcat (pre ++ [some c]),
        some { model := c.model
               created_at := c.created_at
               response := some (chatConcat (pre ++ [some c]))
               done := true
               context := none
               total_duration := c.total_duration
               load_duration := c.load_duration
               prompt_eval_count := c.prompt_eval_count
               prompt_eval_duration := c.prompt_eval_duration
               eval_count := c.eval_count
               eval_duration := c.eval_duration }) := by
    simp [chatStep, hc, jsAppend_eq, chatConcat_append_single, chatFrag]
  calc (chatFold (pre ++ some c :: post) ("", none)).2
      = (chatFold post (chatStep (chatConcat pre, none) (some c))).2 := by
        rw [hsplit, hacc]; rfl
    _ = _ := by rw [hstep, chatFold_snd_of_no_done post _ hpost]

/-- C1 (counterexample): as stated, the claim fails when the unique done
frame is not the last frame of the stream.  On the stream
[done frame with fragment "a", non-done frame with fragment "b"] the
concatenation of all fragments in arrival order is "ab", yet
`generateStream` returns an aggregate whose response text is only "a":
the fragment arriving after the done frame is folded into the running
text but absent from the returned aggregate. -/
theorem stream_aggregate_unique_done_counterexample :
    genDone (some wGenDone) = true ∧ genDone (some wGenFragB) = false ∧
    genConcat [some wGenDone, some wGenFragB] = "hi" ++ "b" ∧
    generateStream ⟨"m", "p"⟩ 200 [some wGenDone, some wGenFragB] "T9" =
      .ok { wGenDone with response := some "hi" } ∧
    ("hi" : String) ≠ "hi" ++ "b" := by
  refine ⟨rfl, rfl, rfl, rfl, by decide⟩

/-- C1 (amended): for every streamed line sequence containing exactly one
frame marked done, `generateStream` (and `chatStream`) returns an
aggregate whose response text equals the concatenation, in arrival
order, of the fragments up to and including the done frame — hence the
full concatenation f1+...+fn whenever the done frame is the last frame —
with the done frame's remaining fields preserved and only its fragment
field replaced by that concatenation (for `chatStream` the aggregate is
rebuilt from the done frame's fields with `done := true` and no
context). -/
theorem stream_aggregate_unique_done
    (req : OllamaGenerateRequest) (creq : OllamaChatRequest) (status : Nat)
    (now : String)
    (pre post : List (Option OllamaGenerateResponse))
    (d : OllamaGenerateResponse)
    (cpre cpost : List (Option OllamaChatFrame)) (c : OllamaChatFrame)
    (hs : httpOk status = true)
    (hd : d.done = true)
    (hpre : ∀ l ∈ pre, genDone l = false)
    (hpost : ∀ l ∈ post, genDone l = false)
    (hc : c.done = true)
    (hcpre : ∀ l ∈ cpre, chatDone l = false)
    (hcpost : ∀ l ∈ cpost, chatDone l = false) :
    generateStream req status (pre ++ some d :: post) now =
      .ok { d with response := some (genConcat (pre ++ [some d])) } ∧
    (post = [] →
      generateStream req status (pre ++ some d :: post) now =
        .ok { d with response := some (genConcat (pre ++ some d :: post)) }) ∧
    chatStream creq status (cpre ++ some c :: cpost) now =
      .ok { model := c.model
            created_at := c.created_at
            response := some (chatConcat (cpre ++ [some c]))
            done := true
            context := none
            total_duration := c.total_duration
            load_duration := c.load_duration
            prompt_eval_count := c.prompt_eval_count
            prompt_eval_duration := c.prompt_eval_duration
            eval_count := c.eval_count
            eval_duration := c.eval_duration } ∧
    (cpost = [] →
      chatStream creq status (cpre ++ some c :: cpost) now =
        .ok { model := c.model
              created_at := c.created_at
              response := some (chatConcat (cpre ++ some c :: cpost))
              done := true
              context := none
              total_duration := c.total_duration
              load_duration := c.load_duration
              prompt_eval_count := c.prompt_eval_count
              prompt_eval_duration := c.prompt_eval_duration
              eval_count := c.eval_count
              eval_duration := c.eval_duration }) := by
  have hg : generateStream req status (pre ++ some d :: post) now =
      .ok { d with response := some (genConcat (pre ++ [some d])) } := by
    have h2 := genFold_single_done pre post d hd hpre hpost
    simp [generateStream, hs, h2]
  have hch : chatStream creq status (cpre ++ some c :: cpost) now =
      .ok { model := c.model
            created_at := c.created_at
            response := some (chatConcat (cpre ++ [some c]))
            done := true
            context := none
            total_duration := c.total_duration
            load_duration := c.load_duration
            prompt_eval_count := c.prompt_eval_count
            prompt_eval_duration := c.prompt_eval_duration
            eval_count := c.eval_count
            eval_duration := c.eval_duration } := by
    have h2 := chatFold_single_done cpre cpost c hc hcpre hcpost
    simp [chatStream, hs, h2]
  refine ⟨hg, fun hp => ?_, hch, fun hcp => ?_⟩
  · subst hp; simpa using hg
  · subst hcp; simpa using hch

/-- Witness for the amended C1 at a concrete stream. -/
theorem stream_aggregate_unique_done_witness :
    generateStream ⟨"m", "p"⟩ 200 [some wGenFragA, some wGenDone] "T9" =
      .ok { wGenDone with response := some "ahi" } ∧
    chatStream ⟨"cm", [("user", "q")]⟩ 200 [some wChatFragC, some wChatDone] "T9" =
      .ok { model := "cm"
            created_at := "T1"
            response := some "cyo"
            done := true
            context := none
            total_duration := some 7
            load_duration := none
            prompt_eval_count := none
            prompt_eval_duration := none
            eval_count := some 3
            eval_duration := none } := by
  have h := stream_aggregate_unique_done ⟨"m", "p"⟩ ⟨"cm", [("user", "q")]⟩ 200 "T9"
    [some wGenFragA] [] wGenDone [some wChatFragC] [] wChatDone
    (by decide) (by decide)
    (by intro l hl; simp at hl; subst hl; decide)
    (by intro l hl; simp at hl)
    (by decide)
    (by intro l hl; simp at hl; subst hl; decide)
    (by intro l hl; simp at hl)
  obtain ⟨h1, -, h3, -⟩ := h
  constructor
  · simpa using h1
  · simpa using h3

/-- C2: for every streamed line sequence in which no frame is marked
done, `generateStream` (and `chatStream`) returns the synthesized
terminal aggregate: `done = true`, response text equal to the
concatenation of all fragments seen, the request's model name, and a
`created_at` equal to the current time `now`. -/
theorem stream_fallback_no_done
    (req : OllamaGenerateRequest) (creq : OllamaChatRequest) (status : Nat)
    (now : String)
    (lines : List (Option OllamaGenerateResponse))
    (clines : List (Option OllamaChatFrame))
    (hs : httpOk status = true)
    (hnd : ∀ l ∈ lines, genDone l = false)
    (hcnd : ∀ l ∈ clines, chatDone l = false) :
    generateStream req status lines now =
      .ok (fallbackResponse req.model now (genConcat lines)) ∧
    chatStream creq status clines now =
      .ok (fallbackResponse creq.model now (chatConcat clines)) ∧
    (fallbackResponse req.model now (genConcat lines)).done = true ∧
    (fallbackResponse req.model now (genConcat lines)).created_at = now ∧
    (fallbackResponse req.model now (genConcat lines)).model = req.model ∧
    (fallbackResponse req.model now (genConcat lines)).response =
      some (genConcat lines) := by
  have h2 := genFold_snd_of_no_done lines ("", none) hnd
  have h1 := genFold_fst lines ("", none)
  have hc2 := chatFold_snd_of_no_done clines ("", none) hcnd
  have hc1 := chatFold_fst clines ("", none)
  refine ⟨?_, ?_, rfl, rfl, rfl, rfl⟩
  · simp only [generateStream, hs, if_true]
    rw [show (genFold lines ("", none)) =
        ((genFold lines ("", none)).1, (genFold lines ("", none)).2) from rfl]
    rw [h2, h1]
    simp [genConcat, genConcatFrom]
  · simp only [chatStream, hs, if_true]
    rw [show (chatFold clines ("", none)) =
        ((chatFold clines ("", none)).1, (chatFold clines ("", none)).2) from rfl]
    rw [hc2, hc1]
    simp [chatConcat, chatConcatFrom]

/-- Witness for C2 at a concrete stream (two fragments, a skipped
malformed line, no done frame). -/
theorem stream_fallback_no_done_witness :
    generateStream ⟨"m", "p"⟩ 200 [some wGenFragA, none, some wGenFragB] "T9" =
      .ok (fallbackResponse "m" "T9" "ab") ∧
    chatStream ⟨"cm", []⟩ 200 [some wChatFragC] "T9" =
      .ok (fallbackResponse "cm" "T9" "c") := by
  have h := stream_fallback_no_done ⟨"m", "p"⟩ ⟨"cm", []⟩ 200 "T9"
    [some wGenFragA, none, some wGenFragB] [some wChatFragC]
    (by decide)
    (by intro l hl; simp at hl
        rcases hl with h | h | h <;> (subst h; decide))
    (by intro l hl; simp at hl; subst hl; decide)
  obtain ⟨h1, h2, -⟩ := h
  constructor
  · simpa using h1
  · simpa using h2

/-- C4: `healthCheck` never raises — it is a total Bool-valued function
of the transport outcome — and is true exactly when the HTTP call
succeeded (2xx) and the decoded body is non-null and exposes a non-null
`models` field; it is false on a network failure, on a non-2xx status,
on a body whose decode throws, on a null body, and on an absent/null
`models` field. -/
theorem healthCheck_spec :
    (∀ o : TagsOutcome, healthCheck o = true ↔
      ∃ status t ms, o = .ok status (.ok (some t)) ∧ httpOk status = true ∧
        t.models = some ms) ∧
    (∀ e, healthCheck (.networkError e) = false) ∧
    (∀ status msg, healthCheck (.ok status (.error msg)) = false) ∧
    (∀ status, healthCheck (.ok status (.ok none)) = false) ∧
    (∀ status, healthCheck (.ok status (.ok (some ⟨none⟩))) = false) ∧
    (∀ body, healthCheck (.ok 500 body) = false) := by
  refine ⟨?_, fun e => rfl, ?_, ?_, ?_, ?_⟩
  · intro o
    constructor
    · intro h
      cases o with
      | networkError e => simp [healthCheck] at h
      | ok status body =>
        by_cases hs : httpOk status
        · cases body with
          | error msg => simp [healthCheck, hs] at h
          | ok ob =>
            cases ob with
            | none => simp [healthCheck, hs] at h
            | some t =>
              cases hm : t.models with
              | none => simp [healthCheck, hs, hm] at h
              | some ms => exact ⟨status, t, ms, rfl, hs, hm⟩
        · simp [healthCheck, hs] at h
    · rintro ⟨status, t, ms, rfl, hs, hm⟩
      simp [healthCheck, hs, hm]
  · intro status msg
    by_cases hs : httpOk status <;> simp [healthCheck, hs]
  · intro status
    by_cases hs : httpOk status <;> simp [healthCheck, hs]
  · intro status
    by_cases hs : httpOk status <;> simp [healthCheck, hs]
  · intro body
    have h500 : httpOk 500 = false := rfl
    cases body with
    | error msg => simp [healthCheck, h500]
    | ok ob => simp [healthCheck, h500]

/-- Witness for C4: a 2xx response whose body carries a (here empty)
models array makes `healthCheck` true. -/
theorem healthCheck_spec_witness :
    healthCheck (.ok 200 (.ok (some ⟨some []⟩))) = true :=
  (healthCheck_spec.1 _).mpr ⟨200, ⟨some []⟩, [], rfl, rfl, rfl⟩

theorem find?_first_match {α : Type} (p : α → Bool) (pre post : List α) (m : α)
    (hm : p m = true) (hpre : ∀ x ∈ pre, p x = false) :
    List.find? p (pre ++ m :: post) = some m := by
  induction pre with
  | nil => simp [List.find?_cons, hm]
  | cons a as ih =>
    have ha : p a = false := hpre a (List.mem_cons_self _ _)
    have := ih (fun x hx => hpre x (List.mem_cons_of_mem _ hx))
    simpa [List.find?_cons, ha] using this

/-- C6: `getModel` returns `none` when `getModels` raises (the failure
is swallowed), returns the first listed descriptor whose `name` equals
the query when one is present, and `none` when none matches. -/
theorem getModel_spec :
    (∀ name o e, getModels o = .error e → getModel name o = none) ∧
    (∀ name o ms, getModels o = .ok ms →
      getModel name o = ms.find? (fun m => m.name == name)) ∧
    (∀ name o ms, getModels o = .ok ms → (∀ m ∈ ms, m.name ≠ name) →
      getModel name o = none) ∧
    (∀ name o pre m post, getModels o = .ok (pre ++ m :: post) →
      m.name = name → (∀ m' ∈ pre, m'.name ≠ name) →
      getModel name o = some m) := by
  refine ⟨?_, ?_, ?_, ?_⟩
  · intro name o e h; simp [getModel, h]
  · intro name o ms h; simp [getModel, h]
  · intro name o ms h hnone
    simp only [getModel, h]
    rw [List.find?_eq_none]
    intro m hm
    simpa using hnone m hm
  · intro name o pre m post h hname hpre
    simp only [getModel, h]
    exact find?_first_match _ pre post m (by simp [hname])
      (fun x hx => by simpa using hpre x hx)

/-- Witness for C6: with two listed models, querying the second's name
returns it; a failing listing returns none. -/
theorem getModel_spec_witness :
    getModel "beta" (.ok 200 (.ok (some ⟨some [wModelA, wModelB]⟩))) =
      some wModelB ∧
    getModel "beta" (.networkError "ECONNREFUSED") = none := by
  constructor
  · exact getModel_spec.2.2.2 "beta" _ [wModelA] wModelB [] rfl rfl
      (by intro m hm; simp at hm; subst hm; decide)
  · exact getModel_spec.1 "beta" _ "ECONNREFUSED" rfl

theorem pullLoop_no_success (lines : List PullLine)
    (h : ∀ x ∈ lines, pullLineSuccess x = false) :
    pullLoop lines = lines := by
  induction lines with
  | nil => rfl
  | cons l ls ih =>
    have hl : pullLineSuccess l = false := h l (List.mem_cons_self _ _)
    simp [pullLoop, hl, ih (fun x hx => h x (List.mem_cons_of_mem _ hx))]

theorem pullLoop_first_success (pre post : List PullLine) (l : PullLine)
    (hpre : ∀ x ∈ pre, pullLineSuccess x = false)
    (hl : pullLineSuccess l = true) :
    pullLoop (pre ++ l :: post) = pre ++ [l] := by
  induction pre with
  | nil => simp [pullLoop, hl]
  | cons a as ih =>
    have ha : pullLineSuccess a = false := hpre a (List.mem_cons_self _ _)
    simp [pullLoop, ha, ih (fun x hx => hpre x (List.mem_cons_of_mem _ hx))]

/-- C5: `pullModel` throws on a non-2xx status; otherwise it resolves
without raising in every case — at the first frame whose status is
"success", leaving the rest of the stream undrained (the consumed lines
are exactly the prefix through that frame), and also at stream end when
no success frame was ever seen. -/
theorem pullModel_spec :
    (∀ status lines, httpOk status = false →
      pullModel status lines = .error (httpErrorMsg status)) ∧
    (∀ status lines, httpOk status = true →
      pullModel status lines = .ok ((), pullLoop lines)) ∧
    (∀ status pre l post, httpOk status = true →
      (∀ x ∈ pre, pullLineSuccess x = false) → pullLineSuccess l = true →
      pullModel status (pre ++ l :: post) = .ok ((), pre ++ [l])) ∧
    (∀ status lines, httpOk status = true →
      (∀ x ∈ lines, pullLineSuccess x = false) →
      pullModel status lines = .ok ((), lines)) := by
  refine ⟨?_, ?_, ?_, ?_⟩
  · intro status lines h; simp [pullModel, h]
  · intro status lines h; simp [pullModel, h]
  · intro status pre l post h hpre hl
    simp [pullModel, h, pullLoop_first_success pre post l hpre hl]
  · intro status lines h hnone
    simp [pullModel, h, pullLoop_no_success lines hnone]

/-- Witness for C5: a 404 throws; a stream whose second line is the
success frame stops there (the trailing line is not drained); a stream
that ends without a success frame resolves anyway. -/
theorem pullModel_spec_witness :
    pullModel 404 [PullLine.frame (some "success")] =
      .error "HTTP error! status: 404" ∧
    pullModel 200 [PullLine.frame (some "pulling"), PullLine.frame (some "success"),
        PullLine.malformed] =
      .ok ((), [PullLine.frame (some "pulling"), PullLine.frame (some "success")]) ∧
    pullModel 200 [PullLine.frame (some "pulling"), PullLine.frame none] =
      .ok ((), [PullLine.frame (some "pulling"), PullLine.frame none]) := by
  refine ⟨?_, ?_, ?_⟩
  · exact pullModel_spec.1 404 _ rfl
  · have h := pullModel_spec.2.2.1 200 [PullLine.frame (some "pulling")]
      (PullLine.frame (some "success")) [PullLine.malformed] rfl
      (by intro x hx; simp at hx; subst hx; rfl) rfl
    simpa using h
  · exact pullModel_spec.2.2.2 200 _ rfl
      (by intro x hx; simp at hx
          rcases hx with h | h <;> (subst h; rfl))

/-- C8: `sendRequest` builds a message with the freshly generated id and
type "request", POSTs it to the fixed relative endpoint with a
bearer-token Authorization header; on a 2xx status it returns the
decoded JSON body verbatim (no unwrapping), on a non-2xx status it fails
with an error carrying the HTTP status, and a network failure is
rethrown to the caller. -/
theorem sendRequest_spec {π β : Type} (baseUrl apiKey freshId method : String)
    (params : Option π) (transport : FetchOutcome (Except String β)) :
    (sendRequest baseUrl apiKey freshId method params transport).1.message =
      ⟨freshId, "request", method, params⟩ ∧
    (sendRequest baseUrl apiKey freshId method params transport).1.httpMethod =
      "POST" ∧
    (sendRequest baseUrl apiKey freshId method params transport).1.url =
      baseUrl ++ mcpRequestPath ∧
    ("Authorization", "Bearer " ++ apiKey) ∈
      (sendRequest baseUrl apiKey freshId method params transport).1.headers ∧
    (∀ status b, transport = .ok status (.ok b) → httpOk status = true →
      (sendRequest baseUrl apiKey freshId method params transport).2 = .ok b) ∧
    (∀ status body, transport = .ok status body → httpOk status = false →
      (sendRequest baseUrl apiKey freshId method params transport).2 =
        .error (httpErrorMsg status)) ∧
    (∀ e, transport = .networkError e →
      (sendRequest baseUrl apiKey freshId method params transport).2 =
        .error e) := by
  refine ⟨rfl, rfl, rfl, by simp [sendRequest], ?_, ?_, ?_⟩
  · intro status b ht hs; subst ht; simp [sendRequest, hs]
  · intro status body ht hs; subst ht; simp [sendRequest, hs]
  · intro e ht; subst ht; rfl

/-- Witness for C8 at concrete inputs: the built message and the three
transport outcomes. -/
theorem sendRequest_spec_witness :
    (sendRequest "http://localhost:3000" "default-key" "abc123xyz" "tools/list"
        (none : Option Unit) (.ok 200 (.ok (7 : Nat)))).1.message =
      ⟨"abc123xyz", "request", "tools/list", none⟩ ∧
    (sendRequest "http://localhost:3000" "default-key" "abc123xyz" "tools/list"
        (none : Option Unit) (.ok 200 (.ok (7 : Nat)))).2 = .ok 7 ∧
    (sendRequest "http://localhost:3000" "default-key" "abc123xyz" "tools/list"
        (none : Option Unit)
        (.ok 503 (.ok (7 : Nat)))).2 = .error "HTTP error! status: 503" ∧
    (sendRequest "http://localhost:3000" "default-key" "abc123xyz" "tools/list"
        (none : Option Unit)
        (.networkError "fetch failed" : FetchOutcome (Except String Nat))).2 =
      .error "fetch failed" := by
  refine ⟨(sendRequest_spec _ _ _ _ _ _).1, ?_, ?_, ?_⟩
  · exact (sendRequest_spec "http://localhost:3000" "default-key" "abc123xyz"
      "tools/list" none _).2.2.2.2.1 200 7 rfl rfl
  · exact (sendRequest_spec "http://localhost:3000" "default-key" "abc123xyz"
      "tools/list" none _).2.2.2.2.2.1 503 (.ok 7) rfl rfl
  · exact (sendRequest_spec "http://localhost:3000" "default-key" "abc123xyz"
      "tools/list" none _).2.2.2.2.2.2 "fetch failed" rfl

/-- C9 (counterexample): the generated id does not have fixed length 9.
`Math.random() = 0.5` is an exactly representable double whose base-36
representation is "0.i", so `generateId` yields "i" of length 1; the
double 2^-17 has the 9-digit expansion "0.000ctbj4i", yielding an id of
length 9.  Two realizable draws thus give ids of different lengths. -/
theorem generateId_fixed_length_counterexample :
    generateId [(18 : Fin 36)] = "i" ∧
    (generateId [(18 : Fin 36)]).length = 1 ∧
    generateId [0, 0, 0, 12, 29, 11, 19, 4, 18] = "000ctbj4i" ∧
    (generateId [(0 : Fin 36), 0, 0, 12, 29, 11, 19, 4, 18]).length = 9 ∧
    (1 : Nat) ≠ 9 := by
  exact ⟨rfl, rfl, rfl, rfl, by decide⟩

/-- C9 (amended): the generated id is the base-36 digit string of the
random draw's fractional part truncated to at most 9 characters: its
length is `min 9 d` where `d` is the number of digits in the draw's
(shortest) base-36 expansion — at most 9, and exactly 9 only when the
expansion has at least 9 digits. -/
theorem generateId_length (ds : List (Fin 36)) :
    (generateId ds).length = min 9 ds.length ∧ (generateId ds).length ≤ 9 := by
  have hmain : (generateId ds).length = min 9 ds.length := by
    by_cases h : ds.isEmpty
    · have hnil : ds = [] := by simpa [List.isEmpty_iff] using h
      subst hnil
      rfl
    · have hne : ds.isEmpty = false := by
        cases hh : ds.isEmpty
        · rfl
        · exact absurd hh h
      have hdata : (jsToString36 ds).toList = '0' :: '.' :: ds.map base36Char := by
        simp [jsToString36, hne]
      calc (generateId ds).length
          = (((jsToString36 ds).toList.drop 2).take 9).length := by
            simp [generateId, jsSubstr]
        _ = ((ds.map base36Char).take 9).length := by rw [hdata]; rfl
        _ = min 9 ds.length := by simp [List.length_take]
  exact ⟨hmain, by rw [hmain]; exact Nat.min_le_left _ _⟩

/-- The list of the four tool names `executeTool` recognizes. -/
theorem executeTool_known_names :
    mcpToolRegistry.map MCPTool.name =
      ["ollama_generate", "ollama_chat", "ollama_models", "ollama_health"] := rfl

/-- C3: for each of the four registered tools, `executeTool` converts a
successful client call into `{success := true, ...data, timestamp}` and
a thrown client failure into the structured
`{success := false, error, timestamp}` payload ("ollama_health" also
carries `healthy := false` there) — a client exception is never
propagated: every outcome yields `.ok`; only a tool name outside the
four throws an unknown-tool error. -/
theorem executeTool_wraps_outcomes :
    (∀ oc now r, oc.generate = .ok r →
      executeTool "ollama_generate" oc now =
        .ok { success := true, response := r.response, model := some r.model
              duration := r.total_duration, models := none, healthy := none
              error := none, timestamp := now }) ∧
    (∀ oc now e, oc.generate = .error e →
      executeTool "ollama_generate" oc now =
        .ok { success := false, response := none, model := none, duration := none
              models := none, healthy := none, error := some e
              timestamp := now }) ∧
    (∀ oc now r, oc.chat = .ok r →
      executeTool "ollama_chat" oc now =
        .ok { success := true, response := r.response, model := some r.model
              duration := r.total_duration, models := none, healthy := none
              error := none, timestamp := now }) ∧
    (∀ oc now e, oc.chat = .error e →
      executeTool "ollama_chat" oc now =
        .ok { success := false, response := none, model := none, duration := none
              models := none, healthy := none, error := some e
              timestamp := now }) ∧
    (∀ oc now ms, oc.models = .ok ms →
      executeTool "ollama_models" oc now =
        .ok { success := true, response := none, model := none, duration := none
              models := some (ms.map modelSummary), healthy := none
              error := none, timestamp := now }) ∧
    (∀ oc now e, oc.models = .error e →
      executeTool "ollama_models" oc now =
        .ok { success := false, response := none, model := none, duration := none
              models := none, healthy := none, error := some e
              timestamp := now }) ∧
    (∀ oc now b, oc.health = .ok b →
      executeTool "ollama_health" oc now =
        .ok { success := true, response := none, model := none, duration := none
              models := none, healthy := some b, error := none
              timestamp := now }) ∧
    (∀ oc now e, oc.health = .error e →
      executeTool "ollama_health" oc now =
        .ok { success := false, response := none, model := none, duration := none
              models := none, healthy := some false, error := some e
              timestamp := now }) ∧
    (∀ name oc now, name ∈ mcpToolRegistry.map MCPTool.name →
      ∃ p, executeTool name oc now = .ok p) ∧
    (∀ name oc now, name ∉ mcpToolRegistry.map MCPTool.name →
      executeTool name oc now = .error ("Unknown tool: " ++ name)) := by
  refine ⟨?_, ?_, ?_, ?_, ?_, ?_, ?_, ?_, ?_, ?_⟩
  · intro oc now r h; simp [executeTool, h]
  · intro oc now e h; simp [executeTool, h]
  · intro oc now r h; simp [executeTool, h]
  · intro oc now e h; simp [executeTool, h]
  · intro oc now ms h; simp [executeTool, h]
  · intro oc now e h; simp [executeTool, h]
  · intro oc now b h; simp [executeTool, h]
  · intro oc now e h; simp [executeTool, h]
  · intro name oc now h
    rw [executeTool_known_names] at h
    simp only [List.mem_cons, List.mem_singleton, List.not_mem_nil, or_false] at h
    rcases h with h | h | h | h <;> subst h <;> exact ⟨_, rfl⟩
  · intro name oc now h
    rw [executeTool_known_names] at h
    simp only [List.mem_cons, List.mem_singleton, List.not_mem_nil, or_false,
      not_or] at h
    obtain ⟨h1, h2, h3, h4⟩ := h
    unfold executeTool
    split
    · exact absurd rfl h1
    · exact absurd rfl h2
    · exact absurd rfl h3
    · exact absurd rfl h4
    · rfl

/-- Witness for C3: a concrete failing generate call is absorbed into a
structured error payload, and an unknown tool throws. -/
theorem executeTool_wraps_outcomes_witness :
    executeTool "ollama_generate"
        ⟨.error "boom", .ok wGenDone, .ok [], .ok true⟩ "T2" =
      .ok { success := false, response := none, model := none, duration := none
            models := none, healthy := none, error := some "boom"
            timestamp := "T2" } ∧
    executeTool "nonexistent_tool"
        ⟨.error "boom", .ok wGenDone, .ok [], .ok true⟩ "T2" =
      .error "Unknown tool: nonexistent_tool" := by
  constructor
  · exact executeTool_wraps_outcomes.2.1 _ "T2" "boom" rfl
  · exact executeTool_wraps_outcomes.2.2.2.2.2.2.2.2.2 "nonexistent_tool" _ "T2"
      (by decide)

/-- C7: the "tools/list" branch of the dispatch table returns the static
registry of exactly 4 tool descriptors, each with a non-empty name and an
object input schema carrying a properties mapping (empty for the no-
argument tools). -/
theorem toolsList_registry_spec (toolName : String) (oc : ToolOutcomes)
    (contextType : String) (query : Option String) (now : String) :
    handleMCPRequest "tools/list" toolName oc contextType query now =
      .ok (.tools mcpToolRegistry) ∧
    mcpToolRegistry.length = 4 ∧
    (∀ t ∈ mcpToolRegistry, t.name ≠ "" ∧ t.inputSchema.type = "object") ∧
    mcpToolRegistry.map MCPTool.name =
      ["ollama_generate", "ollama_chat", "ollama_models", "ollama_health"] := by
  refine ⟨rfl, rfl, ?_, rfl⟩
  intro t ht
  fin_cases ht <;> exact ⟨by decide, rfl⟩

/-- Witness for C7 at concrete handler inputs. -/
theorem toolsList_registry_spec_witness :
    handleMCPRequest "tools/list" "" ⟨.ok wGenDone, .ok wGenDone, .ok [], .ok true⟩
        "project" none "T3" = .ok (.tools mcpToolRegistry) ∧
    ((mcpToolRegistry.get ⟨0, by decide⟩).name ≠ "" ∧
      (mcpToolRegistry.get ⟨0, by decide⟩).inputSchema.type = "object") := by
  have h := toolsList_registry_spec "" ⟨.ok wGenDone, .ok wGenDone, .ok [], .ok true⟩
    "project" none "T3"
  exact ⟨h.1, h.2.2.1 _ (by decide)⟩

/-- C10 (implicit): the error branch of the "ollama_health" handler is
unreachable — `healthCheck` is total, so wiring its result into
`executeTool` always produces the `{success := true, healthy, timestamp}`
payload, for every transport outcome; the `{success := false,
healthy := false, error}` shape is never returned. -/
theorem executeTool_health_always_success (o : TagsOutcome)
    (g c : Except String OllamaGenerateResponse)
    (m : Except String (List OllamaModel)) (now : String) :
    executeTool "ollama_health" ⟨g, c, m, .ok (healthCheck o)⟩ now =
      .ok { success := true, response := none, model := none, duration := none
            models := none, healthy := some (healthCheck o), error := none
            timestamp := now } := rfl

end CicdMcp
